import Mathlib

/-!
Shallow embedding of the order-fulfillment saga coordinator in `src/app.py`
(FastAPI handler `create_order`, plus the data it manipulates).

Modelling conventions:
* Every outbound HTTP call made through `call_service` is represented by a
  `Call` descriptor; an environment `Env : Call → CallOut` supplies, for each
  call, either a transport-successful JSON response (`CallOut.ok`), an
  `httpx.HTTPStatusError` carrying the upstream status code and the detail
  string the handler would extract from the error body (`CallOut.httpErr`),
  or any other exception — timeout, connection refused, malformed JSON —
  carrying its `str(e)` rendering (`CallOut.exn`).
* JSON response bodies are abstracted to the three keys the handler reads
  (`id`, `status`, `detail`); a response that is not a dict (e.g. an empty
  body, which `call_service` returns as `None`) is `Resp.nonDict`.
* Python `float` money amounts are modelled as `Rat`; Python `int` as `Int`.
* Python truthiness of optional strings (`if x_idempotency_key:`,
  `if reservation_id:` …) is `optTruthy`: present and non-empty.
* The in-memory `IDEMPOTENCY` dict is an association list threaded through
  the run; the generated `uuid.uuid4()` values (order id, payment-payload id,
  shipment-payload id) are inputs `oid`, `payReqId`, `shipReqId`.
* `statusErrText` abstracts Python's `str(e)` for an `HTTPStatusError` that
  escapes to the top-level `except Exception` handler.
-/

namespace OrderService

/-- `Address` pydantic model (src/app.py lines 21-25). -/
structure Address where
  line1 : String
  city : String
  country : String
  postalCode : String
deriving Repr, DecidableEq

/-- `OrderItem` pydantic model (src/app.py lines 27-30): `qty : int`, `price : float`. -/
structure OrderItem where
  sku : String
  qty : Int
  price : Rat
deriving Repr, DecidableEq

/-- `CreateOrderRequest` pydantic model (src/app.py lines 32-36). It has no
`total` field: the caller cannot supply a total. -/
structure CreateOrderRequest where
  userId : Option String
  address : Address
  currency : String
  items : List OrderItem
deriving Repr, DecidableEq

/-- The refund-outcome record stored as `order["refund_attempt"]`
(src/app.py line 223). -/
structure RefundAttempt where
  success : Bool
  error : Option String
deriving Repr, DecidableEq

/-- The address dict built at src/app.py lines 90-96, including the
backward-compatibility `zipcode` copy of `postalCode`. -/
structure AddressDict where
  line1 : String
  city : String
  country : String
  postalCode : String
  zipcode : String
deriving Repr, DecidableEq

/-- The `order` JSON dict assembled at src/app.py lines 87-101 and mutated
through the run. Optional keys are absent (`none`) until assigned. -/
structure OrderRec where
  id : String
  userId : String
  address : AddressDict
  items : List OrderItem
  total : Rat
  currency : String
  status : String
  reservationId : Option String := none
  paymentIntentId : Option String := none
  shipmentId : Option String := none
  refund_attempt : Option RefundAttempt := none
deriving Repr, DecidableEq

/-- A JSON response body as far as the handler inspects it: a dict with the
three keys it reads, or anything that is not a dict. -/
inductive Resp where
  | jdict (id : Option String) (status : Option String) (detail : Option String)
  | nonDict
deriving Repr, DecidableEq

/-- Outcome of one `call_service` invocation. -/
inductive CallOut where
  | ok (resp : Resp)
  | httpErr (status : Nat) (detail : String)
  | exn (msg : String)
deriving Repr, DecidableEq

/-- Descriptor of one outbound call, with the request data the handler sends. -/
inductive Call where
  | dbCreate (ord : OrderRec)
  | dbGet (oid : String)
  | dbUpdate (oid : String) (ord : OrderRec)
  | reserve (oid : String) (items : List OrderItem)
  | payment (payReqId : String) (oid : String) (amount : Rat)
  | releaseRes (rid : String)
  | refund (pid : String)
  | ship (shipReqId : String) (oid : String) (addr : Address) (items : List OrderItem)
  | commitRes (rid : String)
deriving Repr, DecidableEq

/-- The environment: what each downstream call returns in a given run. -/
def Env : Type := Call → CallOut

/-- What the handler produces: the 201 body, the replayed DB record, an
`HTTPException(status, detail)`, or an exception that escaped the handler
(FastAPI then returns a generic 500). -/
inductive HttpResult where
  | body (ord : OrderRec)
  | replay (resp : Resp)
  | httpExc (status : Nat) (detail : String)
  | unhandled (msg : String)
deriving Repr, DecidableEq

/-- Result of one `create_order` run: the HTTP-level result, the updated
`IDEMPOTENCY` map, and the trace of downstream calls in issue order. -/
structure RunOut where
  result : HttpResult
  idem : List (String × String)
  trace : List Call
deriving Repr, DecidableEq

/-- Python truthiness of an optional string: present and non-empty. -/
def optTruthy : Option String → Bool
  | some s => s ≠ ""
  | none => false

/-- `IDEMPOTENCY` lookup (first binding wins). -/
def lookupIdem (m : List (String × String)) (k : String) : Option String :=
  (m.find? (fun p => p.1 = k)).map (·.2)

/-- `payload.userId or "anonymous"` (src/app.py line 89). -/
def userIdOf : Option String → String
  | some s => if s = "" then "anonymous" else s
  | none => "anonymous"

/-- The address dict of src/app.py lines 90-96: pydantic guarantees every
field is present, so the `hasattr`/`getattr` fallbacks only fire on empty
`country` (`or "IN"`). -/
def mkAddressDict (a : Address) : AddressDict :=
  { line1 := a.line1
    city := a.city
    country := if a.country = "" then "IN" else a.country
    postalCode := a.postalCode
    zipcode := a.postalCode }

/-- `sum(it.qty * it.price for it in payload.items)` (src/app.py line 98). -/
def orderTotal (items : List OrderItem) : Rat :=
  (items.map (fun it => (it.qty : Rat) * it.price)).sum

/-- `getattr(payload, "currency", "INR") or "INR"` (src/app.py line 99). -/
def currencyOf (c : String) : String :=
  if c = "" then "INR" else c

/-- The initial order dict of src/app.py lines 87-101 (`status = "created"`). -/
def initialOrder (payload : CreateOrderRequest) (oid : String) : OrderRec :=
  { id := oid
    userId := userIdOf payload.userId
    address := mkAddressDict payload.address
    items := payload.items
    total := orderTotal payload.items
    currency := currencyOf payload.currency
    status := "created" }

/-- `resp.get("id") if isinstance(resp, dict) else None`. -/
def respId : Resp → Option String
  | .jdict i _ _ => i
  | .nonDict => none

/-- `resp.get("status")` for a dict response. -/
def respStatus : Resp → Option String
  | .jdict _ s _ => s
  | .nonDict => none

/-- `resp.get("detail")` for a dict response. -/
def respDetail : Resp → Option String
  | .jdict _ _ d => d
  | .nonDict => none

/-- Abstraction of Python's `str(e)` for an `httpx.HTTPStatusError` escaping
to the top-level handler (only its presence in the message matters). -/
def statusErrText (status : Nat) (detail : String) : String :=
  "Server error " ++ toString status ++ ": " ++ detail

/-- `if reservation_id: [release call]` — the guarded compensation call list. -/
def guardCall (marker : Option String) (c : String → Call) : List Call :=
  match marker with
  | some s => if s = "" then [] else [c s]
  | none => []

/-- The top-level `except Exception` fallback of src/app.py lines 266-285:
mark the current order cancelled, best-effort persist; only if that persist
succeeds, best-effort release and refund; always raise
`HTTPException(500, "Finalization failed: …")`. -/
def fallback (env : Env) (oid : String) (ord : OrderRec)
    (reservationId paymentId : Option String) (msg : String)
    (idem : List (String × String)) (tr : List Call) : RunOut :=
  let ordC := { ord with status := "cancelled" }
  match env (Call.dbUpdate oid ordC) with
  | .ok _ =>
      { result := .httpExc 500 ("Finalization failed: " ++ msg)
        idem := idem
        trace := tr ++ [Call.dbUpdate oid ordC]
          ++ guardCall reservationId Call.releaseRes
          ++ guardCall paymentId Call.refund }
  | _ =>
      { result := .httpExc 500 ("Finalization failed: " ++ msg)
        idem := idem
        trace := tr ++ [Call.dbUpdate oid ordC] }

/-- Python's `str.lower()`: character-wise lower-casing (the statuses involved
are ASCII; this is Lean's `String.toLower` written directly over the character
list so that it evaluates). -/
def lowerStr (s : String) : String := ⟨s.data.map Char.toLower⟩

/-- The business-status check of src/app.py lines 167-185: a dict response
whose lower-cased `status` is neither `"completed"` nor `"success"` is a step
failure; a non-dict response skips the check entirely. -/
def paymentBusinessFail : Resp → Bool
  | .jdict _ st _ =>
      let pstatus := lowerStr (match st with | some s => s | none => "")
      !(pstatus = "completed" || pstatus = "success")
  | .nonDict => false

/-- Whether the refund call on payment `p` succeeds in environment `env`
(src/app.py lines 204-215). -/
def refundSucceeded (env : Env) (p : String) : Bool :=
  match env (Call.refund p) with
  | .ok _ => true
  | _ => false

/-- The `refund_error` recorded when the refund call fails: the extracted
upstream detail for an `HTTPStatusError`, `str(e)` otherwise
(src/app.py lines 208-215). -/
def refundErrText (env : Env) (p : String) : Option String :=
  match env (Call.refund p) with
  | .ok _ => none
  | .httpErr _ rd => some rd
  | .exn m => some m

/-- The caller-visible detail for a shipping failure (src/app.py lines
238-241), depending on the refund attempt's outcome. -/
def shipFailDetail (upstream : String) (refundSuccess : Bool)
    (refundError : Option String) : String :=
  if refundSuccess then
    "Shipping failed: " ++ upstream ++ ". Payment refunded."
  else
    "Shipping failed: " ++ upstream ++ ". Refund attempt failed: "
      ++ (match refundError with | some e => e | none => "None")
      ++ ". Manual reconciliation required."

/-- The saga body of src/app.py lines 86-287: build and persist the initial
order, record the idempotency key, then reserve → pay → ship → finalize with
the per-step failure handling of the source. -/
def sagaRun (env : Env) (payload : CreateOrderRequest) (key : Option String)
    (idem0 : List (String × String)) (oid payReqId shipReqId : String) : RunOut :=
  let order0 := initialOrder payload oid
  match env (Call.dbCreate order0) with
  | .httpErr s d =>
      { result := .unhandled (statusErrText s d), idem := idem0,
        trace := [Call.dbCreate order0] }
  | .exn m =>
      { result := .unhandled m, idem := idem0, trace := [Call.dbCreate order0] }
  | .ok _ =>
    let idem1 := match key with
      | some k => if k = "" then idem0 else (k, oid) :: idem0
      | none => idem0
    let tr0 := [Call.dbCreate order0]
    -- 1) Reserve inventory (src/app.py lines 117-138)
    match env (Call.reserve oid payload.items) with
    | .exn m => fallback env oid order0 none none m idem1 (tr0 ++ [Call.reserve oid payload.items])
    | .httpErr s d =>
        let ordC := { order0 with status := "cancelled" }
        let tr := tr0 ++ [Call.reserve oid payload.items, Call.dbUpdate oid ordC]
        if 400 ≤ s ∧ s < 500 then
          { result := .httpExc s d, idem := idem1, trace := tr }
        else
          { result := .httpExc 502 ("Upstream error from inventory service: " ++ d),
            idem := idem1, trace := tr }
    | .ok invResp =>
      let reservationId := respId invResp
      let tr1 := tr0 ++ [Call.reserve oid payload.items]
      -- 2) Process payment (src/app.py lines 140-165)
      match env (Call.payment payReqId oid order0.total) with
      | .exn m => fallback env oid order0 reservationId none m idem1
          (tr1 ++ [Call.payment payReqId oid order0.total])
      | .httpErr s d =>
          let ordC := { order0 with status := "cancelled" }
          let tr := tr1 ++ [Call.payment payReqId oid order0.total, Call.dbUpdate oid ordC]
            ++ guardCall reservationId Call.releaseRes
          if 400 ≤ s ∧ s < 500 then
            { result := .httpExc s d, idem := idem1, trace := tr }
          else
            { result := .httpExc 502 ("Upstream error from payment service: " ++ d),
              idem := idem1, trace := tr }
      | .ok payResp =>
        let tr2 := tr1 ++ [Call.payment payReqId oid order0.total]
        -- business-status check (src/app.py lines 167-185); `paymentId` is
        -- only read on paths the check lets through
        let paymentId := match payResp with
          | .jdict i _ _ => i
          | .nonDict => none
        if paymentBusinessFail payResp then
          let pstatus := lowerStr (match respStatus payResp with | some s => s | none => "")
          let ordC := { order0 with status := "cancelled" }
          { result := .httpExc 402 (match respDetail payResp with
              | some d => d
              | none => "Payment failed (status=" ++ pstatus ++ ")")
            idem := idem1
            trace := tr2 ++ [Call.dbUpdate oid ordC] ++ guardCall reservationId Call.releaseRes }
        else
        -- 3) Create shipment (src/app.py lines 187-244)
        match env (Call.ship shipReqId oid payload.address payload.items) with
        | .exn m => fallback env oid order0 reservationId paymentId m idem1
            (tr2 ++ [Call.ship shipReqId oid payload.address payload.items])
        | .httpErr _ d =>
            let tr3 := tr2 ++ [Call.ship shipReqId oid payload.address payload.items]
            let refundOut : Bool × Option String × List Call :=
              match paymentId with
              | some p =>
                if p = "" then (false, none, [])
                else (refundSucceeded env p, refundErrText env p, [Call.refund p])
              | none => (false, none, [])
            let refundSuccess := refundOut.1
            let refundError := refundOut.2.1
            let ordF :=
              if optTruthy paymentId then
                { order0 with
                  status := "failed_shipping",
                  paymentIntentId := paymentId,
                  refund_attempt := some ⟨refundSuccess, refundError⟩ }
              else { order0 with status := "failed_shipping" }
            { result := .httpExc 502 (shipFailDetail d refundSuccess refundError)
              idem := idem1
              trace := tr3 ++ refundOut.2.2 ++ [Call.dbUpdate oid ordF]
                ++ guardCall reservationId Call.releaseRes }
        | .ok shipResp =>
          let shipmentId := match shipResp with
            | .jdict i _ _ => i
            | .nonDict => some shipReqId
          let tr3 := tr2 ++ [Call.ship shipReqId oid payload.address payload.items]
          -- 4) Finalize (src/app.py lines 246-261)
          let ordDone :=
            { order0 with
              status := "completed",
              reservationId := (if optTruthy reservationId then reservationId
                else order0.reservationId),
              paymentIntentId := (if optTruthy paymentId then paymentId
                else order0.paymentIntentId),
              shipmentId := (if optTruthy shipmentId then shipmentId
                else order0.shipmentId) }
          match env (Call.dbUpdate oid ordDone) with
          | .ok _ =>
              { result := .body ordDone
                idem := idem1
                trace := tr3 ++ [Call.dbUpdate oid ordDone]
                  ++ guardCall reservationId Call.commitRes }
          | .httpErr s d => fallback env oid ordDone reservationId paymentId
              (statusErrText s d) idem1 (tr3 ++ [Call.dbUpdate oid ordDone])
          | .exn m => fallback env oid ordDone reservationId paymentId m idem1
              (tr3 ++ [Call.dbUpdate oid ordDone])

/-- The `create_order` handler (src/app.py lines 76-287): serve a replay from
the idempotency map, otherwise run the saga. -/
def create_order (env : Env) (payload : CreateOrderRequest) (key : Option String)
    (idem0 : List (String × String)) (oid payReqId shipReqId : String) : RunOut :=
  match key with
  | some k =>
    if k = "" then sagaRun env payload key idem0 oid payReqId shipReqId
    else
      match lookupIdem idem0 k with
      | some oid0 =>
          match env (Call.dbGet oid0) with
          | .ok r => { result := .replay r, idem := idem0, trace := [Call.dbGet oid0] }
          | .httpErr s d =>
              { result := .unhandled (statusErrText s d), idem := idem0,
                trace := [Call.dbGet oid0] }
          | .exn m =>
              { result := .unhandled m, idem := idem0, trace := [Call.dbGet oid0] }
      | none => sagaRun env payload key idem0 oid payReqId shipReqId
  | none => sagaRun env payload key idem0 oid payReqId shipReqId

/-- Number of reservation-release calls in a trace. -/
def countReleases (t : List Call) : Nat :=
  t.countP fun c => match c with | Call.releaseRes _ => true | _ => false

/-- Number of refund calls in a trace. -/
def countRefunds (t : List Call) : Nat :=
  t.countP fun c => match c with | Call.refund _ => true | _ => false

/-- Whether a call is one of the three forward saga steps
(reserve / payment / shipment creation). -/
def isSagaStep : Call → Bool
  | Call.reserve _ _ => true
  | Call.payment _ _ _ => true
  | Call.ship _ _ _ _ => true
  | _ => false

/-- Number of forward saga-step calls in a trace. -/
def countSagaSteps (t : List Call) : Nat :=
  t.countP isSagaStep

/-- The idempotency key (if supplied and non-empty) is not yet in the map:
the request is not a replay. -/
def freshKey (key : Option String) (idem0 : List (String × String)) : Prop :=
  ∀ k, key = some k → k ≠ "" → lookupIdem idem0 k = none

/-- Every order record sent to the order store in a trace
(`POST /orders` body or `PUT /orders/{oid}` body). -/
def recordsOfTrace (t : List Call) : List OrderRec :=
  t.filterMap fun c => match c with
    | Call.dbCreate o => some o
    | Call.dbUpdate _ o => some o
    | _ => none

/-- Every order record a run exposes: each record written to the store, plus
the 201 response body if the run produced one. -/
def orderRecords (out : RunOut) : List OrderRec :=
  recordsOfTrace out.trace
    ++ (match out.result with | .body o => [o] | _ => [])

/-- A request whose key is fresh (or absent) runs the saga body. -/
theorem create_order_not_replay (env : Env) (payload : CreateOrderRequest)
    (key : Option String) (idem0 : List (String × String))
    (oid payReqId shipReqId : String) (hfresh : freshKey key idem0) :
    create_order env payload key idem0 oid payReqId shipReqId
      = sagaRun env payload key idem0 oid payReqId shipReqId := by
  unfold create_order
  cases key with
  | none => rfl
  | some k =>
    by_cases hk : k = ""
    · simp [hk]
    · simp [hk, hfresh k rfl hk]

/-- Address used in the concrete scenarios below. -/
def happyAddress : Address :=
  { line1 := "221B", city := "Mumbai", country := "IN", postalCode := "400001" }

/-- The spec's happy-path request: items `[{sku:"A",qty:2,price:10.0}]`,
currency `"INR"`. -/
def happyRequest : CreateOrderRequest :=
  { userId := some "u1", address := happyAddress, currency := "INR",
    items := [{ sku := "A", qty := 2, price := 10 }] }

/-- Environment where reservation succeeds (id `res-1`), payment reports
business status `completed` (id `pay-1`), shipment succeeds (id `shp-1`),
and the order store accepts every write. -/
def happyEnv : Env := fun c =>
  match c with
  | Call.reserve _ _ => .ok (.jdict (some "res-1") none none)
  | Call.payment _ _ _ => .ok (.jdict (some "pay-1") (some "completed") none)
  | Call.ship _ _ _ _ => .ok (.jdict (some "shp-1") none none)
  | _ => .ok .nonDict

/-- The order the happy-path run returns. -/
def happyOrder : OrderRec :=
  { id := "ord-1", userId := "u1", address := mkAddressDict happyAddress,
    items := [{ sku := "A", qty := 2, price := 10 }], total := 20,
    currency := "INR", status := "completed",
    reservationId := some "res-1", paymentIntentId := some "pay-1",
    shipmentId := some "shp-1" }

/-- C7: for the request with items `[{sku:"A",qty:2,price:10.0}]` and currency
`"INR"`, when reservation succeeds, the payment business status is
`"completed"`, and shipment succeeds, `create_order` returns an order with
status `"completed"`, all three progress markers set, and total `20.0`. -/
theorem C7_happy_path :
    (create_order happyEnv happyRequest none [] "ord-1" "payreq-1" "shipreq-1").result
        = .body happyOrder
      ∧ happyOrder.status = "completed"
      ∧ happyOrder.reservationId = some "res-1"
      ∧ happyOrder.paymentIntentId = some "pay-1"
      ∧ happyOrder.shipmentId = some "shp-1"
      ∧ happyOrder.total = 20 := by
  refine ⟨?_, rfl, rfl, rfl, rfl, rfl⟩
  simp only [create_order, sagaRun, happyEnv, happyRequest, happyOrder, initialOrder,
    userIdOf, currencyOf, mkAddressDict, happyAddress, respId, respStatus, respDetail,
    paymentBusinessFail, lowerStr, optTruthy, guardCall]
  norm_num [orderTotal]
  decide

/-- C4: when the inventory-reservation call fails with a 4xx business
rejection, the run cancels the order (one store update with status
`"cancelled"`), issues no payment and no shipment call, and returns the
upstream's own status code and detail. The trace is exactly the initial
persist, the reservation attempt, and the cancelling store update. -/
theorem C4_reserve_client_fault (env : Env) (payload : CreateOrderRequest)
    (key : Option String) (idem0 : List (String × String))
    (oid payReqId shipReqId : String) (r0 : Resp) (s : Nat) (d : String)
    (hfresh : freshKey key idem0)
    (hdb : env (Call.dbCreate (initialOrder payload oid)) = .ok r0)
    (hres : env (Call.reserve oid payload.items) = .httpErr s d)
    (hlo : 400 ≤ s) (hhi : s < 500) :
    (create_order env payload key idem0 oid payReqId shipReqId).result = .httpExc s d
    ∧ (create_order env payload key idem0 oid payReqId shipReqId).trace
        = [Call.dbCreate (initialOrder payload oid),
           Call.reserve oid payload.items,
           Call.dbUpdate oid { initialOrder payload oid with status := "cancelled" }] := by
  rw [create_order_not_replay env payload key idem0 oid payReqId shipReqId hfresh]
  unfold sagaRun
  simp only [hdb, hres]
  simp [hlo, hhi]

/-- C5: replaying an idempotency key that is already in the store returns the
stored order id's record (whose `id` is that same order id) and issues no new
reservation, payment, or shipment call — the only downstream call is the
single order-store read. -/
theorem C5_replay_no_new_calls (env : Env) (payload : CreateOrderRequest)
    (k : String) (idem0 : List (String × String))
    (oid payReqId shipReqId oid0 : String) (r : Resp)
    (hk : k ≠ "") (hlook : lookupIdem idem0 k = some oid0)
    (hget : env (Call.dbGet oid0) = .ok r)
    (hstore : respId r = some oid0) :
    (create_order env payload (some k) idem0 oid payReqId shipReqId).result = .replay r
    ∧ respId r = some oid0
    ∧ (create_order env payload (some k) idem0 oid payReqId shipReqId).trace
        = [Call.dbGet oid0]
    ∧ countSagaSteps (create_order env payload (some k) idem0 oid payReqId shipReqId).trace
        = 0 := by
  simp [create_order, hk, hlook, hget, hstore, countSagaSteps, isSagaStep]

/-- A request without an idempotency key is never a replay. -/
theorem freshKey_none (idem0 : List (String × String)) : freshKey none idem0 :=
  fun _ hk => nomatch hk

/-- The initial order's total is the computed item total. -/
theorem initialOrder_total (payload : CreateOrderRequest) (oid : String) :
    (initialOrder payload oid).total = orderTotal payload.items := rfl

/-- For one and the same upstream detail, the refund-success message and a
refund-failure message are never equal: their lengths always differ. -/
theorem shipFailDetail_ne (d e : String) :
    shipFailDetail d true none ≠ shipFailDetail d false (some e) := by
  intro h
  have h2 := congrArg String.length h
  simp only [shipFailDetail, if_true, Bool.false_eq_true, if_false,
    String.length_append] at h2
  have c1 : ("Shipping failed: ").length = 17 := rfl
  have c2 : (". Payment refunded.").length = 19 := rfl
  have c3 : (". Refund attempt failed: ").length = 25 := rfl
  have c4 : (". Manual reconciliation required.").length = 33 := rfl
  omega

/-- C1: in every run where reservation and payment succeed (each yielding an
id, payment with a business-success status) and the shipment call fails with
an HTTP error, the order is persisted with status `failed_shipping` carrying a
`refund_attempt` whose `success` flag is the refund call's actual outcome,
exactly one refund call is attempted, the caller sees a 502 whose detail is
the refund-success message or the refund-failure message according to that
same outcome, and those two messages are always distinct strings. -/
theorem C1_ship_failure_refund (env : Env) (payload : CreateOrderRequest)
    (key : Option String) (idem0 : List (String × String))
    (oid payReqId shipReqId r p : String) (r0 rr : Resp) (pst pdet : Option String)
    (sSt : Nat) (sD : String)
    (hfresh : freshKey key idem0)
    (hdb : env (Call.dbCreate (initialOrder payload oid)) = .ok r0)
    (hres : env (Call.reserve oid payload.items) = .ok rr)
    (hrid : respId rr = some r) (hrne : r ≠ "")
    (hpay : env (Call.payment payReqId oid (orderTotal payload.items))
      = .ok (.jdict (some p) pst pdet))
    (hpne : p ≠ "")
    (hbiz : paymentBusinessFail (.jdict (some p) pst pdet) = false)
    (hship : env (Call.ship shipReqId oid payload.address payload.items)
      = .httpErr sSt sD) :
    countRefunds (create_order env payload key idem0 oid payReqId shipReqId).trace = 1
    ∧ Call.dbUpdate oid
        { initialOrder payload oid with
          status := "failed_shipping",
          paymentIntentId := some p,
          refund_attempt := some ⟨refundSucceeded env p, refundErrText env p⟩ }
        ∈ (create_order env payload key idem0 oid payReqId shipReqId).trace
    ∧ (create_order env payload key idem0 oid payReqId shipReqId).result
        = .httpExc 502 (shipFailDetail sD (refundSucceeded env p) (refundErrText env p))
    ∧ (refundSucceeded env p = false → ∃ e, refundErrText env p = some e)
    ∧ (∀ e, shipFailDetail sD true none ≠ shipFailDetail sD false (some e)) := by
  rw [create_order_not_replay env payload key idem0 oid payReqId shipReqId hfresh]
  unfold sagaRun
  simp only [initialOrder_total, hdb, hres, hrid, hpay, hbiz, hship]
  refine ⟨?_, ?_, ?_, ?_, fun e => shipFailDetail_ne sD e⟩
  · simp [hpne, hrne, countRefunds, guardCall, List.countP_cons, List.countP_append]
  · simp [hpne, hrne, optTruthy, guardCall]
  · simp [hpne, hrne, optTruthy, guardCall]
  · intro hf
    unfold refundSucceeded at hf
    unfold refundErrText
    cases henv : env (Call.refund p) <;> simp [henv] at hf ⊢

/-- Environment for the C1 witness: reservation and payment succeed, the
shipment call fails with a 500, the refund call is rejected upstream. -/
def c1Env : Env := fun c =>
  match c with
  | Call.reserve _ _ => .ok (.jdict (some "r1") none none)
  | Call.payment _ _ _ => .ok (.jdict (some "p1") (some "completed") none)
  | Call.ship _ _ _ _ => .httpErr 500 "warehouse down"
  | Call.refund _ => .httpErr 409 "already captured"
  | _ => .ok .nonDict

/-- Witness for C1 at a concrete run (failed refund). -/
theorem C1_ship_failure_refund_witness :
    countRefunds (create_order c1Env happyRequest none [] "o1" "P1" "S1").trace = 1
    ∧ Call.dbUpdate "o1"
        { initialOrder happyRequest "o1" with
          status := "failed_shipping",
          paymentIntentId := some "p1",
          refund_attempt := some ⟨refundSucceeded c1Env "p1", refundErrText c1Env "p1"⟩ }
        ∈ (create_order c1Env happyRequest none [] "o1" "P1" "S1").trace
    ∧ (create_order c1Env happyRequest none [] "o1" "P1" "S1").result
        = .httpExc 502 (shipFailDetail "warehouse down" (refundSucceeded c1Env "p1")
            (refundErrText c1Env "p1"))
    ∧ (refundSucceeded c1Env "p1" = false → ∃ e, refundErrText c1Env "p1" = some e)
    ∧ (∀ e, shipFailDetail "warehouse down" true none
        ≠ shipFailDetail "warehouse down" false (some e)) :=
  C1_ship_failure_refund c1Env happyRequest none [] "o1" "P1" "S1" "r1" "p1"
    .nonDict (.jdict (some "r1") none none) (some "completed") none 500 "warehouse down"
    (freshKey_none []) rfl rfl rfl (by decide) rfl (by decide) (by decide) rfl

/-- Environment for the C4 witness: the reservation is rejected 409. -/
def c4Env : Env := fun c =>
  match c with
  | Call.reserve _ _ => .httpErr 409 "insufficient stock"
  | _ => .ok .nonDict

/-- Witness for C4 at a concrete run. -/
theorem C4_reserve_client_fault_witness :
    (create_order c4Env happyRequest none [] "o4" "P4" "S4").result
        = .httpExc 409 "insufficient stock"
    ∧ (create_order c4Env happyRequest none [] "o4" "P4" "S4").trace
        = [Call.dbCreate (initialOrder happyRequest "o4"),
           Call.reserve "o4" happyRequest.items,
           Call.dbUpdate "o4" { initialOrder happyRequest "o4" with status := "cancelled" }] :=
  C4_reserve_client_fault c4Env happyRequest none [] "o4" "P4" "S4" .nonDict 409
    "insufficient stock" (freshKey_none []) rfl rfl (by norm_num) (by norm_num)

/-- Environment for the C5 witness: the store holds the first request's order. -/
def c5Env : Env := fun c =>
  match c with
  | Call.dbGet _ => .ok (.jdict (some "o-first") none none)
  | _ => .ok .nonDict

/-- Witness for C5 at a concrete replay. -/
theorem C5_replay_no_new_calls_witness :
    (create_order c5Env happyRequest (some "key1") [("key1", "o-first")] "onew" "P5" "S5").result
        = .replay (.jdict (some "o-first") none none)
    ∧ respId (.jdict (some "o-first") none none) = some "o-first"
    ∧ (create_order c5Env happyRequest (some "key1") [("key1", "o-first")] "onew" "P5" "S5").trace
        = [Call.dbGet "o-first"]
    ∧ countSagaSteps
        (create_order c5Env happyRequest (some "key1") [("key1", "o-first")] "onew" "P5" "S5").trace
        = 0 :=
  C5_replay_no_new_calls c5Env happyRequest "key1" [("key1", "o-first")] "onew" "P5" "S5"
    "o-first" (.jdict (some "o-first") none none) (by decide) rfl rfl rfl

/-- Environment for the C2 counterexample: every step transport-succeeds but
the shipping response is not a dict, so it supplies no shipment id. -/
def c2Env : Env := fun c =>
  match c with
  | Call.reserve _ _ => .ok (.jdict (some "r1") none none)
  | Call.payment _ _ _ => .ok (.jdict (some "p1") (some "completed") none)
  | Call.ship _ _ _ _ => .ok .nonDict
  | _ => .ok .nonDict

/-- The order the C2 counterexample run returns: note `shipmentId = some "S2"`,
the locally generated shipment-request id. -/
def c2Order : OrderRec :=
  { id := "o2", userId := "u1", address := mkAddressDict happyAddress,
    items := [{ sku := "A", qty := 2, price := 10 }], total := 20,
    currency := "INR", status := "completed",
    reservationId := some "r1", paymentIntentId := some "p1",
    shipmentId := some "S2" }

/-- C2 counterexample: the shipping create-call returns success with a
non-dict body — the downstream supplies no id — yet the returned completed
order carries `shipmentId = some "S2"`, the locally generated
shipment-request id (fabricated at src/app.py line 191), refuting the claim
that markers are never fabricated locally. -/
theorem C2_counterexample :
    c2Env (Call.ship "S2" "o2" happyAddress happyRequest.items) = .ok .nonDict
    ∧ (create_order c2Env happyRequest none [] "o2" "P2" "S2").result = .body c2Order
    ∧ c2Order.shipmentId = some "S2" := by
  refine ⟨rfl, ?_, rfl⟩
  simp only [create_order, sagaRun, c2Env, happyRequest, c2Order, initialOrder,
    userIdOf, currencyOf, mkAddressDict, happyAddress, respId, respStatus, respDetail,
    paymentBusinessFail, lowerStr, optTruthy, guardCall]
  norm_num [orderTotal]
  decide

/-- Environment for the C3 counterexample: reservation succeeds, the payment
call raises a transport error (no HTTP response), and the order store is
down for updates. -/
def c3Env : Env := fun c =>
  match c with
  | Call.reserve _ _ => .ok (.jdict (some "r1") none none)
  | Call.payment _ _ _ => .exn "connect timeout"
  | Call.dbUpdate _ _ => .httpErr 500 "store down"
  | _ => .ok .nonDict

/-- C3 counterexample: with a successful reservation and a payment transport
fault, the run issues zero reservation-release calls (the fallback's failed
store update skips compensation) and returns the generic 500 finalization
error, not a status code reserved for payment failures. -/
theorem C3_counterexample :
    c3Env (Call.reserve "o3" happyRequest.items) = .ok (.jdict (some "r1") none none)
    ∧ c3Env (Call.payment "P3" "o3" (orderTotal happyRequest.items)) = .exn "connect timeout"
    ∧ countReleases (create_order c3Env happyRequest none [] "o3" "P3" "S3").trace = 0
    ∧ (create_order c3Env happyRequest none [] "o3" "P3" "S3").result
        = .httpExc 500 "Finalization failed: connect timeout" := by
  refine ⟨rfl, rfl, ?_, ?_⟩ <;>
  · simp only [create_order, sagaRun, fallback, c3Env, happyRequest, initialOrder,
      userIdOf, currencyOf, mkAddressDict, happyAddress, respId, respStatus, respDetail,
      paymentBusinessFail, lowerStr, optTruthy, guardCall]
    norm_num [orderTotal, countReleases]
    try decide

/-- Environment for the C8 counterexample, refund branch succeeding. -/
def c8EnvA : Env := fun c =>
  match c with
  | Call.reserve _ _ => .ok (.jdict (some "r1") none none)
  | Call.payment _ _ _ => .ok (.jdict (some "p1") (some "completed") none)
  | Call.ship _ _ _ _ => .httpErr 500 "warehouse down"
  | Call.refund _ => .ok .nonDict
  | _ => .ok .nonDict

/-- Environment for the C8 counterexample, identical to `c8EnvA` except that
the compensating refund call fails. -/
def c8EnvB : Env := fun c =>
  match c with
  | Call.reserve _ _ => .ok (.jdict (some "r1") none none)
  | Call.payment _ _ _ => .ok (.jdict (some "p1") (some "completed") none)
  | Call.ship _ _ _ _ => .httpErr 500 "warehouse down"
  | Call.refund _ => .httpErr 500 "refund down"
  | _ => .ok .nonDict

/-- C8 counterexample: two runs with the same primary shipping failure,
differing only in the compensating refund call's outcome, return different
caller-visible error details — a compensation failure does change the error
detail, refuting the claim as stated (this difference is the behaviour C1
requires). -/
theorem C8_counterexample :
    (create_order c8EnvA happyRequest none [] "o8" "P8" "S8").result
        = .httpExc 502 "Shipping failed: warehouse down. Payment refunded."
    ∧ (create_order c8EnvB happyRequest none [] "o8" "P8" "S8").result
        = .httpExc 502 ("Shipping failed: warehouse down. Refund attempt failed: "
            ++ "refund down. Manual reconciliation required.")
    ∧ ("Shipping failed: warehouse down. Payment refunded." : String)
        ≠ ("Shipping failed: warehouse down. Refund attempt failed: "
            ++ "refund down. Manual reconciliation required.") := by
  refine ⟨?_, ?_, by decide⟩ <;>
  · simp only [create_order, sagaRun, c8EnvA, c8EnvB, happyRequest, initialOrder,
      userIdOf, currencyOf, mkAddressDict, happyAddress, respId, respStatus, respDetail,
      paymentBusinessFail, lowerStr, optTruthy, guardCall, shipFailDetail,
      refundSucceeded, refundErrText]
    norm_num [orderTotal]
    try decide

/-- Environment for the C9 counterexample: the reservation call raises a
transport error (no response received). -/
def c9Env : Env := fun c =>
  match c with
  | Call.reserve _ _ => .exn "connect timeout"
  | _ => .ok .nonDict

/-- C9 counterexample: a transport fault during the reserve step is returned
as the generic 500 finalization error — not as an upstream-failure error
naming the failing service, refuting the claim that transport faults share
the server-fault mapping. -/
theorem C9_counterexample :
    c9Env (Call.reserve "o9" happyRequest.items) = .exn "connect timeout"
    ∧ (create_order c9Env happyRequest none [] "o9" "P9" "S9").result
        = .httpExc 500 "Finalization failed: connect timeout" := by
  refine ⟨rfl, ?_⟩
  simp only [create_order, sagaRun, fallback, c9Env, happyRequest, initialOrder,
    userIdOf, currencyOf, mkAddressDict, happyAddress, optTruthy, guardCall]
  norm_num [orderTotal]
  decide

/-- The top-level fallback always answers the 500 finalization error, whatever
the compensating store update, release, and refund calls return. -/
theorem fallback_result (env : Env) (oid : String) (ord : OrderRec)
    (rid pid : Option String) (msg : String) (idem : List (String × String))
    (tr : List Call) :
    (fallback env oid ord rid pid msg idem tr).result
      = .httpExc 500 ("Finalization failed: " ++ msg) := by
  unfold fallback
  dsimp only
  split <;> rfl

/-- The fallback leaves the idempotency map unchanged. -/
theorem fallback_idem (env : Env) (oid : String) (ord : OrderRec)
    (rid pid : Option String) (msg : String) (idem : List (String × String))
    (tr : List Call) :
    (fallback env oid ord rid pid msg idem tr).idem = idem := by
  unfold fallback
  dsimp only
  split <;> rfl

/-- C9 amended: a server fault — an HTTP-status error outside the 4xx band —
during reserve or payment is wrapped into a 502 upstream-failure error naming
the failing service; a transport fault (no response received) instead falls
through to the generic 500 finalization error, so only server faults get the
service-naming upstream mapping. -/
theorem C9_amended_fault_mapping (env : Env) (payload : CreateOrderRequest)
    (key : Option String) (idem0 : List (String × String))
    (oid payReqId shipReqId : String) (r0 : Resp)
    (hfresh : freshKey key idem0)
    (hdb : env (Call.dbCreate (initialOrder payload oid)) = .ok r0) :
    (∀ s d, env (Call.reserve oid payload.items) = .httpErr s d →
      ¬(400 ≤ s ∧ s < 500) →
      (create_order env payload key idem0 oid payReqId shipReqId).result
        = .httpExc 502 ("Upstream error from inventory service: " ++ d))
    ∧ (∀ rr s d, env (Call.reserve oid payload.items) = .ok rr →
        env (Call.payment payReqId oid (orderTotal payload.items)) = .httpErr s d →
        ¬(400 ≤ s ∧ s < 500) →
        (create_order env payload key idem0 oid payReqId shipReqId).result
          = .httpExc 502 ("Upstream error from payment service: " ++ d))
    ∧ (∀ m, env (Call.reserve oid payload.items) = .exn m →
        (create_order env payload key idem0 oid payReqId shipReqId).result
          = .httpExc 500 ("Finalization failed: " ++ m)) := by
  rw [create_order_not_replay env payload key idem0 oid payReqId shipReqId hfresh]
  refine ⟨?_, ?_, ?_⟩
  · intro s d hres hnot
    unfold sagaRun
    simp only [hdb, hres]
    simp [hnot]
  · intro rr s d hres hpay hnot
    unfold sagaRun
    simp only [hdb, hres, initialOrder_total, hpay]
    simp [hnot]
  · intro m hres
    unfold sagaRun
    simp only [hdb, hres]
    exact fallback_result ..

/-- Witness for the amended C9 at a concrete run (inventory transport fault,
third conjunct of the theorem). -/
theorem C9_amended_fault_mapping_witness :
    (create_order c9Env happyRequest none [] "o9b" "P9" "S9").result
      = .httpExc 500 ("Finalization failed: " ++ "connect timeout") :=
  (C9_amended_fault_mapping c9Env happyRequest none [] "o9b" "P9" "S9" .nonDict
    (freshKey_none []) rfl).2.2 "connect timeout" rfl

/-- C3 amended: after a successful reservation, every payment failure
cancels the order (a store update with status `"cancelled"` is issued). For
an HTTP-status failure the reservation is released exactly once and the
error is the upstream 4xx pass-through or the 502 payment-upstream wrap; for
a business-declined payment the release also happens exactly once and the
error uses the 402 code (the only code reserved for payment failures); for a
transport fault the error is the generic 500 finalization error and the
release happens exactly once when the fallback's cancel store-update
succeeds, and not at all when it fails. -/
theorem C3_amended_payment_failure (env : Env) (payload : CreateOrderRequest)
    (key : Option String) (idem0 : List (String × String))
    (oid payReqId shipReqId r : String) (r0 rr : Resp)
    (hfresh : freshKey key idem0)
    (hdb : env (Call.dbCreate (initialOrder payload oid)) = .ok r0)
    (hres : env (Call.reserve oid payload.items) = .ok rr)
    (hrid : respId rr = some r) (hrne : r ≠ "") :
    (∀ s d, env (Call.payment payReqId oid (orderTotal payload.items)) = .httpErr s d →
      countReleases (create_order env payload key idem0 oid payReqId shipReqId).trace = 1
      ∧ Call.dbUpdate oid { initialOrder payload oid with status := "cancelled" }
          ∈ (create_order env payload key idem0 oid payReqId shipReqId).trace
      ∧ (create_order env payload key idem0 oid payReqId shipReqId).result
          = if 400 ≤ s ∧ s < 500 then .httpExc s d
            else .httpExc 502 ("Upstream error from payment service: " ++ d))
    ∧ (∀ pid pst pdet,
        env (Call.payment payReqId oid (orderTotal payload.items)) = .ok (.jdict pid pst pdet) →
        paymentBusinessFail (.jdict pid pst pdet) = true →
        countReleases (create_order env payload key idem0 oid payReqId shipReqId).trace = 1
        ∧ Call.dbUpdate oid { initialOrder payload oid with status := "cancelled" }
            ∈ (create_order env payload key idem0 oid payReqId shipReqId).trace
        ∧ ∃ det, (create_order env payload key idem0 oid payReqId shipReqId).result
            = .httpExc 402 det)
    ∧ (∀ m, env (Call.payment payReqId oid (orderTotal payload.items)) = .exn m →
        Call.dbUpdate oid { initialOrder payload oid with status := "cancelled" }
          ∈ (create_order env payload key idem0 oid payReqId shipReqId).trace
        ∧ (create_order env payload key idem0 oid payReqId shipReqId).result
            = .httpExc 500 ("Finalization failed: " ++ m)
        ∧ countReleases (create_order env payload key idem0 oid payReqId shipReqId).trace
            = (match env (Call.dbUpdate oid
                { initialOrder payload oid with status := "cancelled" }) with
               | .ok _ => 1
               | _ => 0)) := by
  rw [create_order_not_replay env payload key idem0 oid payReqId shipReqId hfresh]
  refine ⟨?_, ?_, ?_⟩
  · intro s d hpay
    unfold sagaRun
    simp only [hdb, hres, hrid, initialOrder_total, hpay]
    by_cases hc : 400 ≤ s ∧ s < 500 <;>
      simp [hc, countReleases, guardCall, hrne, List.countP_cons, List.countP_append]
  · intro pid pst pdet hpay hbiz
    unfold sagaRun
    simp only [hdb, hres, hrid, initialOrder_total, hpay, hbiz]
    refine ⟨?_, ?_, ?_⟩
    · simp [countReleases, guardCall, hrne, List.countP_cons, List.countP_append]
    · simp [guardCall, hrne]
    · exact ⟨_, rfl⟩
  · intro m hpay
    rw [← initialOrder_total payload oid] at hpay
    unfold sagaRun
    simp only [hdb, hres, hrid, hpay]
    unfold fallback
    dsimp only
    cases henv : env (Call.dbUpdate oid { initialOrder payload oid with status := "cancelled" }) <;>
      simp [henv, countReleases, guardCall, hrne, List.countP_cons, List.countP_append]

/-- Environment for the amended-C3 witness: reservation succeeds, the payment
service answers 500. -/
def c3bEnv : Env := fun c =>
  match c with
  | Call.reserve _ _ => .ok (.jdict (some "r1") none none)
  | Call.payment _ _ _ => .httpErr 500 "card network down"
  | _ => .ok .nonDict

/-- Witness for the amended C3 at a concrete run (payment 500, first
conjunct of the theorem). -/
theorem C3_amended_payment_failure_witness :
    countReleases (create_order c3bEnv happyRequest none [] "o3b" "P3" "S3").trace = 1
    ∧ Call.dbUpdate "o3b" { initialOrder happyRequest "o3b" with status := "cancelled" }
        ∈ (create_order c3bEnv happyRequest none [] "o3b" "P3" "S3").trace
    ∧ (create_order c3bEnv happyRequest none [] "o3b" "P3" "S3").result
        = .httpExc 502 "Upstream error from payment service: card network down" := by
  have h := (C3_amended_payment_failure c3bEnv happyRequest none [] "o3b" "P3" "S3" "r1"
    .nonDict (.jdict (some "r1") none none) (freshKey_none []) rfl rfl rfl
    (by decide)).1 500 "card network down" rfl
  refine ⟨h.1, h.2.1, ?_⟩
  rw [h.2.2]
  decide

/-- C8 amended: the caller-visible status and detail of a primary failure are
a function of the primary step outcomes alone — the release and store-update
compensations cannot influence them (the environment's answers to those calls
are unconstrained here); the one recorded exception is the shipping path,
whose 502 detail additionally records the refund call's outcome but still
always carries the primary upstream detail. -/
theorem C8_amended_compensation_isolation (env : Env) (payload : CreateOrderRequest)
    (key : Option String) (idem0 : List (String × String))
    (oid payReqId shipReqId r : String) (r0 rr : Resp)
    (hfresh : freshKey key idem0)
    (hdb : env (Call.dbCreate (initialOrder payload oid)) = .ok r0)
    (hres : env (Call.reserve oid payload.items) = .ok rr)
    (hrid : respId rr = some r) (hrne : r ≠ "") :
    (∀ s d, env (Call.payment payReqId oid (orderTotal payload.items)) = .httpErr s d →
      (create_order env payload key idem0 oid payReqId shipReqId).result
        = if 400 ≤ s ∧ s < 500 then .httpExc s d
          else .httpExc 502 ("Upstream error from payment service: " ++ d))
    ∧ (∀ pid pst pdet,
        env (Call.payment payReqId oid (orderTotal payload.items)) = .ok (.jdict pid pst pdet) →
        paymentBusinessFail (.jdict pid pst pdet) = true →
        (create_order env payload key idem0 oid payReqId shipReqId).result
          = .httpExc 402 (match pdet with
              | some dd => dd
              | none => "Payment failed (status="
                  ++ lowerStr (match pst with | some st => st | none => "") ++ ")"))
    ∧ (∀ p pst pdet sSt sD,
        env (Call.payment payReqId oid (orderTotal payload.items))
          = .ok (.jdict (some p) pst pdet) →
        p ≠ "" →
        paymentBusinessFail (.jdict (some p) pst pdet) = false →
        env (Call.ship shipReqId oid payload.address payload.items) = .httpErr sSt sD →
        (create_order env payload key idem0 oid payReqId shipReqId).result
          = .httpExc 502 (shipFailDetail sD (refundSucceeded env p) (refundErrText env p))) := by
  rw [create_order_not_replay env payload key idem0 oid payReqId shipReqId hfresh]
  refine ⟨?_, ?_, ?_⟩
  · intro s d hpay
    unfold sagaRun
    simp only [hdb, hres, hrid, initialOrder_total, hpay]
    by_cases hc : 400 ≤ s ∧ s < 500 <;> simp [hc]
  · intro pid pst pdet hpay hbiz
    unfold sagaRun
    simp only [hdb, hres, hrid, initialOrder_total, hpay, hbiz, respStatus, respDetail]
    rfl
  · intro p pst pdet sSt sD hpay hpne hbiz hship
    unfold sagaRun
    simp only [hdb, hres, hrid, initialOrder_total, hpay, hbiz, hship]
    simp [hpne]

/-- Witness for the amended C8 at a concrete run (shipping fails, refund
fails; third conjunct of the theorem). -/
theorem C8_amended_compensation_isolation_witness :
    (create_order c8EnvB happyRequest none [] "o8b" "P8" "S8").result
      = .httpExc 502 (shipFailDetail "warehouse down" (refundSucceeded c8EnvB "p1")
          (refundErrText c8EnvB "p1")) :=
  (C8_amended_compensation_isolation c8EnvB happyRequest none [] "o8b" "P8" "S8" "r1"
    .nonDict (.jdict (some "r1") none none) (freshKey_none []) rfl rfl rfl
    (by decide)).2.2 "p1" (some "completed") none 500 "warehouse down" rfl (by decide)
    (by decide) rfl

/-- Store records distribute over trace concatenation. -/
theorem recordsOfTrace_append (t1 t2 : List Call) :
    recordsOfTrace (t1 ++ t2) = recordsOfTrace t1 ++ recordsOfTrace t2 := by
  simp [recordsOfTrace]

/-- No call, no record. -/
theorem recordsOfTrace_nil : recordsOfTrace [] = [] := rfl

/-- A store create at the head contributes its record. -/
theorem recordsOfTrace_cons_dbCreate (o : OrderRec) (t : List Call) :
    recordsOfTrace (Call.dbCreate o :: t) = o :: recordsOfTrace t := rfl

/-- A store update at the head contributes its record. -/
theorem recordsOfTrace_cons_dbUpdate (x : String) (o : OrderRec) (t : List Call) :
    recordsOfTrace (Call.dbUpdate x o :: t) = o :: recordsOfTrace t := rfl

/-- A store read contributes no record. -/
theorem recordsOfTrace_cons_dbGet (x : String) (t : List Call) :
    recordsOfTrace (Call.dbGet x :: t) = recordsOfTrace t := rfl

/-- A reservation call contributes no record. -/
theorem recordsOfTrace_cons_reserve (x : String) (its : List OrderItem) (t : List Call) :
    recordsOfTrace (Call.reserve x its :: t) = recordsOfTrace t := rfl

/-- A payment call contributes no record. -/
theorem recordsOfTrace_cons_payment (a x : String) (amt : Rat) (t : List Call) :
    recordsOfTrace (Call.payment a x amt :: t) = recordsOfTrace t := rfl

/-- A release call contributes no record. -/
theorem recordsOfTrace_cons_release (x : String) (t : List Call) :
    recordsOfTrace (Call.releaseRes x :: t) = recordsOfTrace t := rfl

/-- A refund call contributes no record. -/
theorem recordsOfTrace_cons_refund (x : String) (t : List Call) :
    recordsOfTrace (Call.refund x :: t) = recordsOfTrace t := rfl

/-- A shipment call contributes no record. -/
theorem recordsOfTrace_cons_ship (a x : String) (ad : Address) (its : List OrderItem)
    (t : List Call) :
    recordsOfTrace (Call.ship a x ad its :: t) = recordsOfTrace t := rfl

/-- A commit call contributes no record. -/
theorem recordsOfTrace_cons_commit (x : String) (t : List Call) :
    recordsOfTrace (Call.commitRes x :: t) = recordsOfTrace t := rfl

/-- A guarded release call writes no store record. -/
theorem recordsOfTrace_release (m : Option String) :
    recordsOfTrace (guardCall m Call.releaseRes) = [] := by
  cases m with
  | none => rfl
  | some s => by_cases hs : s = "" <;> simp [guardCall, hs, recordsOfTrace]

/-- A guarded refund call writes no store record. -/
theorem recordsOfTrace_refund (m : Option String) :
    recordsOfTrace (guardCall m Call.refund) = [] := by
  cases m with
  | none => rfl
  | some s => by_cases hs : s = "" <;> simp [guardCall, hs, recordsOfTrace]

/-- A guarded commit call writes no store record. -/
theorem recordsOfTrace_commit (m : Option String) :
    recordsOfTrace (guardCall m Call.commitRes) = [] := by
  cases m with
  | none => rfl
  | some s => by_cases hs : s = "" <;> simp [guardCall, hs, recordsOfTrace]

/-- Unfolding of `orderRecords` on a literal run output. -/
theorem orderRecords_mk (r : HttpResult) (i : List (String × String)) (t : List Call) :
    orderRecords ⟨r, i, t⟩
      = recordsOfTrace t ++ (match r with | .body o => [o] | _ => []) := rfl

/-- The records a fallback invocation exposes: those already in the trace
prefix, plus the cancelled version of the order it was handed. -/
theorem orderRecords_fallback (env : Env) (oid : String) (ord : OrderRec)
    (rid pid : Option String) (msg : String) (idem : List (String × String))
    (tr : List Call) :
    orderRecords (fallback env oid ord rid pid msg idem tr)
      = recordsOfTrace tr ++ [{ ord with status := "cancelled" }] := by
  unfold fallback orderRecords
  dsimp only
  split <;>
    simp [recordsOfTrace_append, recordsOfTrace_release, recordsOfTrace_refund,
      recordsOfTrace_cons_dbUpdate, recordsOfTrace_nil]

/-- Every record the saga body writes to the store, and the returned body,
carries the computed item total. -/
theorem total_sagaRun (env : Env) (payload : CreateOrderRequest)
    (key : Option String) (idem0 : List (String × String))
    (oid payReqId shipReqId : String) :
    ∀ o ∈ orderRecords (sagaRun env payload key idem0 oid payReqId shipReqId),
      o.total = orderTotal payload.items := by
  unfold sagaRun
  dsimp only
  cases hdb : env (Call.dbCreate (initialOrder payload oid)) with
  | httpErr s d =>
      simp [orderRecords_mk, recordsOfTrace_cons_dbCreate, recordsOfTrace_nil,
        initialOrder_total]
  | exn m =>
      simp [orderRecords_mk, recordsOfTrace_cons_dbCreate, recordsOfTrace_nil,
        initialOrder_total]
  | ok r0 =>
    dsimp only
    cases hres : env (Call.reserve oid payload.items) with
    | exn m =>
        simp [orderRecords_fallback, recordsOfTrace_cons_dbCreate,
          recordsOfTrace_cons_reserve, recordsOfTrace_append, recordsOfTrace_nil,
          initialOrder_total, List.forall_mem_append]
    | httpErr s d =>
        dsimp only
        split <;>
          simp [orderRecords_mk, recordsOfTrace_cons_dbCreate, recordsOfTrace_cons_reserve,
            recordsOfTrace_cons_dbUpdate, recordsOfTrace_nil, initialOrder_total]
    | ok invResp =>
      dsimp only
      cases hpay : env (Call.payment payReqId oid (initialOrder payload oid).total) with
      | exn m =>
          simp [orderRecords_fallback, recordsOfTrace_cons_dbCreate,
            recordsOfTrace_cons_reserve, recordsOfTrace_cons_payment,
            recordsOfTrace_append, recordsOfTrace_nil, initialOrder_total,
            List.forall_mem_append]
      | httpErr s d =>
          dsimp only
          split <;>
            simp [orderRecords_mk, recordsOfTrace_cons_dbCreate, recordsOfTrace_cons_reserve,
              recordsOfTrace_cons_payment, recordsOfTrace_cons_dbUpdate,
              recordsOfTrace_append, recordsOfTrace_release, recordsOfTrace_nil,
              initialOrder_total, List.forall_mem_append]
      | ok payResp =>
        dsimp only
        split
        · simp [orderRecords_mk, recordsOfTrace_cons_dbCreate, recordsOfTrace_cons_reserve,
            recordsOfTrace_cons_payment, recordsOfTrace_cons_dbUpdate,
            recordsOfTrace_append, recordsOfTrace_release, recordsOfTrace_nil,
            initialOrder_total, List.forall_mem_append]
        · cases hship : env (Call.ship shipReqId oid payload.address payload.items) with
          | exn m =>
              simp [orderRecords_fallback, recordsOfTrace_cons_dbCreate,
                recordsOfTrace_cons_reserve, recordsOfTrace_cons_payment,
                recordsOfTrace_cons_ship, recordsOfTrace_append, recordsOfTrace_nil,
                initialOrder_total, List.forall_mem_append]
          | httpErr s d =>
              dsimp only
              cases payResp with
              | nonDict =>
                  simp [orderRecords_mk, recordsOfTrace_cons_dbCreate,
                    recordsOfTrace_cons_reserve, recordsOfTrace_cons_payment,
                    recordsOfTrace_cons_ship, recordsOfTrace_cons_dbUpdate,
                    recordsOfTrace_append, recordsOfTrace_release, recordsOfTrace_nil,
                    initialOrder_total, List.forall_mem_append, optTruthy]
              | jdict i st dt =>
                cases i with
                | none =>
                    simp [orderRecords_mk, recordsOfTrace_cons_dbCreate,
                      recordsOfTrace_cons_reserve, recordsOfTrace_cons_payment,
                      recordsOfTrace_cons_ship, recordsOfTrace_cons_dbUpdate,
                      recordsOfTrace_append, recordsOfTrace_release, recordsOfTrace_nil,
                      initialOrder_total, List.forall_mem_append, optTruthy]
                | some p =>
                    by_cases hp : p = "" <;>
                      simp [orderRecords_mk, recordsOfTrace_cons_dbCreate,
                        recordsOfTrace_cons_reserve, recordsOfTrace_cons_payment,
                        recordsOfTrace_cons_ship, recordsOfTrace_cons_refund,
                        recordsOfTrace_cons_dbUpdate, recordsOfTrace_append,
                        recordsOfTrace_release, recordsOfTrace_nil, initialOrder_total,
                        List.forall_mem_append, optTruthy, hp]
          | ok shipResp =>
              dsimp only
              split <;>
                simp [orderRecords_mk, orderRecords_fallback, recordsOfTrace_cons_dbCreate,
                  recordsOfTrace_cons_reserve, recordsOfTrace_cons_payment,
                  recordsOfTrace_cons_ship, recordsOfTrace_cons_dbUpdate,
                  recordsOfTrace_append, recordsOfTrace_commit, recordsOfTrace_nil,
                  initialOrder_total, List.forall_mem_append, apply_ite OrderRec.total]

/-- C6: in every run, the caller cannot supply a total (`CreateOrderRequest`
has no such field); each order record written to the store and the returned
order body carry `total = Σ quantity*unitPrice` over the items, so the total
is computed from the items and never mutated after creation. -/
theorem C6_total_computed_and_immutable (env : Env) (payload : CreateOrderRequest)
    (key : Option String) (idem0 : List (String × String))
    (oid payReqId shipReqId : String) :
    ∀ o ∈ orderRecords (create_order env payload key idem0 oid payReqId shipReqId),
      o.total = orderTotal payload.items := by
  unfold create_order
  cases key with
  | none => exact total_sagaRun env payload none idem0 oid payReqId shipReqId
  | some k =>
    by_cases hk : k = ""
    · simp only [hk]
      exact total_sagaRun env payload (some "") idem0 oid payReqId shipReqId
    · simp only [hk]
      cases hlook : lookupIdem idem0 k with
      | none =>
          simp only [if_neg hk, hlook]
          exact total_sagaRun env payload (some k) idem0 oid payReqId shipReqId
      | some oid0 =>
          simp only [if_neg hk, hlook]
          cases env (Call.dbGet oid0) <;> simp [orderRecords, recordsOfTrace]

/-- Witness for C6 at a concrete run (the C7 happy path). -/
theorem C6_total_computed_and_immutable_witness :
    happyOrder ∈ orderRecords (create_order happyEnv happyRequest none [] "ord-1" "payreq-1" "shipreq-1")
    ∧ happyOrder.total = orderTotal happyRequest.items := by
  have hmem : happyOrder
      ∈ orderRecords (create_order happyEnv happyRequest none [] "ord-1" "payreq-1" "shipreq-1") := by
    simp only [orderRecords, create_order, sagaRun, happyEnv, happyRequest, happyOrder,
      initialOrder, userIdOf, currencyOf, mkAddressDict, happyAddress, respId,
      respStatus, respDetail, paymentBusinessFail, lowerStr, optTruthy, guardCall,
      recordsOfTrace]
    norm_num [orderTotal]
    try decide
  exact ⟨hmem,
    C6_total_computed_and_immutable happyEnv happyRequest none [] "ord-1" "payreq-1"
      "shipreq-1" happyOrder hmem⟩

/-- The initial order has no reservation marker. -/
theorem initialOrder_reservationId (payload : CreateOrderRequest) (oid : String) :
    (initialOrder payload oid).reservationId = none := rfl

/-- The initial order has no payment marker. -/
theorem initialOrder_paymentIntentId (payload : CreateOrderRequest) (oid : String) :
    (initialOrder payload oid).paymentIntentId = none := rfl

/-- The initial order has no shipment marker. -/
theorem initialOrder_shipmentId (payload : CreateOrderRequest) (oid : String) :
    (initialOrder payload oid).shipmentId = none := rfl

/-- Marker provenance for one order record: each marker is absent or traceable
to the corresponding successful create-call response — with the payment marker
additionally requiring the business-success status, and the shipment marker
allowed to fall back to the locally generated request id exactly when the
successful shipping response is not a dict. -/
def markersFromResponses (env : Env) (payload : CreateOrderRequest)
    (oid payReqId shipReqId : String) (o : OrderRec) : Prop :=
  (o.reservationId = none
    ∨ ∃ rr, env (Call.reserve oid payload.items) = .ok rr ∧ respId rr = o.reservationId)
  ∧ (o.paymentIntentId = none
    ∨ ∃ pst pdet, env (Call.payment payReqId oid (orderTotal payload.items))
          = .ok (.jdict o.paymentIntentId pst pdet)
        ∧ paymentBusinessFail (.jdict o.paymentIntentId pst pdet) = false)
  ∧ (o.shipmentId = none
    ∨ ∃ sr, env (Call.ship shipReqId oid payload.address payload.items) = .ok sr
        ∧ (respId sr = o.shipmentId ∨ (sr = .nonDict ∧ o.shipmentId = some shipReqId)))

/-- A record with no markers vacuously satisfies marker provenance. -/
theorem markersFromResponses_none (env : Env) (payload : CreateOrderRequest)
    (oid payReqId shipReqId : String) (o : OrderRec)
    (h1 : o.reservationId = none) (h2 : o.paymentIntentId = none)
    (h3 : o.shipmentId = none) :
    markersFromResponses env payload oid payReqId shipReqId o :=
  ⟨Or.inl h1, Or.inl h2, Or.inl h3⟩

/-- Provenance of a reservation marker assigned by the finalize step. -/
theorem reservation_marker_ok (env : Env) (payload : CreateOrderRequest)
    (oid : String) (rr : Resp)
    (hres : env (Call.reserve oid payload.items) = .ok rr) (v : Option String)
    (hv : v = if optTruthy (respId rr) then respId rr else none) :
    v = none ∨ ∃ r2, env (Call.reserve oid payload.items) = .ok r2 ∧ respId r2 = v := by
  by_cases h : optTruthy (respId rr) = true
  · subst hv; rw [if_pos h]; exact Or.inr ⟨rr, hres, rfl⟩
  · subst hv; rw [if_neg h]; exact Or.inl rfl

/-- Provenance of a payment marker assigned by the finalize step. -/
theorem payment_marker_ok (env : Env) (payload : CreateOrderRequest)
    (oid payReqId : String) (i st dt : Option String)
    (hpay : env (Call.payment payReqId oid (orderTotal payload.items))
      = .ok (.jdict i st dt))
    (hbf : paymentBusinessFail (.jdict i st dt) = false) (v : Option String)
    (hv : v = if optTruthy i then i else none) :
    v = none ∨ ∃ pst pdet, env (Call.payment payReqId oid (orderTotal payload.items))
        = .ok (.jdict v pst pdet) ∧ paymentBusinessFail (.jdict v pst pdet) = false := by
  by_cases h : optTruthy i = true
  · subst hv; rw [if_pos h]; exact Or.inr ⟨st, dt, hpay, hbf⟩
  · subst hv; rw [if_neg h]; exact Or.inl rfl

/-- Provenance of a shipment marker assigned by the finalize step, including
the local-id fallback for non-dict responses. -/
theorem shipment_marker_ok (env : Env) (payload : CreateOrderRequest)
    (oid shipReqId : String) (sr : Resp)
    (hship : env (Call.ship shipReqId oid payload.address payload.items) = .ok sr)
    (v : Option String)
    (hv : v = if optTruthy (match sr with | .jdict i _ _ => i | .nonDict => some shipReqId)
        then (match sr with | .jdict i _ _ => i | .nonDict => some shipReqId) else none) :
    v = none ∨ ∃ s2, env (Call.ship shipReqId oid payload.address payload.items) = .ok s2
        ∧ (respId s2 = v ∨ (s2 = .nonDict ∧ v = some shipReqId)) := by
  cases sr with
  | jdict i st dt =>
      by_cases h : optTruthy i = true
      · subst hv; rw [if_pos h]; exact Or.inr ⟨.jdict i st dt, hship, Or.inl rfl⟩
      · subst hv; rw [if_neg h]; exact Or.inl rfl
  | nonDict =>
      by_cases h : optTruthy (some shipReqId) = true
      · subst hv; rw [if_pos h]; exact Or.inr ⟨.nonDict, hship, Or.inr ⟨rfl, rfl⟩⟩
      · subst hv; rw [if_neg h]; exact Or.inl rfl

/-- C2 amended: in every non-replay run, every order record written to the
store and the returned body satisfies marker provenance: the reservation and
payment markers are set only from the id supplied by the corresponding
successful create-call response (the payment marker additionally only under a
business-success status, so it is never persisted for a declined payment);
the shipment marker likewise comes from a successful shipping response,
except that when that response is not a dict the handler falls back to the
locally generated shipment-request id. -/
theorem C2_amended_marker_provenance (env : Env) (payload : CreateOrderRequest)
    (key : Option String) (idem0 : List (String × String))
    (oid payReqId shipReqId : String)
    (hfresh : freshKey key idem0) :
    ∀ o ∈ orderRecords (create_order env payload key idem0 oid payReqId shipReqId),
      markersFromResponses env payload oid payReqId shipReqId o := by
  rw [create_order_not_replay env payload key idem0 oid payReqId shipReqId hfresh]
  unfold sagaRun
  dsimp only
  cases hdb : env (Call.dbCreate (initialOrder payload oid)) with
  | httpErr s d =>
      intro o ho
      simp only [orderRecords_mk, recordsOfTrace_cons_dbCreate, recordsOfTrace_nil,
        List.mem_append, List.mem_cons, List.not_mem_nil, or_assoc, or_false] at ho
      subst ho
      exact markersFromResponses_none _ _ _ _ _ _ rfl rfl rfl
  | exn m =>
      intro o ho
      simp only [orderRecords_mk, recordsOfTrace_cons_dbCreate, recordsOfTrace_nil,
        List.mem_append, List.mem_cons, List.not_mem_nil, or_assoc, or_false] at ho
      subst ho
      exact markersFromResponses_none _ _ _ _ _ _ rfl rfl rfl
  | ok r0 =>
    dsimp only
    cases hres : env (Call.reserve oid payload.items) with
    | exn m =>
        intro o ho
        simp only [orderRecords_fallback, recordsOfTrace_append,
          recordsOfTrace_cons_dbCreate, recordsOfTrace_cons_reserve, recordsOfTrace_nil,
          List.mem_append, List.mem_cons, List.not_mem_nil, or_assoc, or_false, false_or] at ho
        rcases ho with rfl | rfl <;>
          exact markersFromResponses_none _ _ _ _ _ _ rfl rfl rfl
    | httpErr s d =>
        intro o ho
        simp only [apply_ite orderRecords, orderRecords_mk, recordsOfTrace_append,
          recordsOfTrace_cons_dbCreate, recordsOfTrace_cons_reserve,
          recordsOfTrace_cons_dbUpdate, recordsOfTrace_nil, ite_self,
          List.mem_append, List.mem_cons, List.not_mem_nil, or_assoc, or_false, false_or] at ho
        rcases ho with rfl | rfl <;>
          exact markersFromResponses_none _ _ _ _ _ _ rfl rfl rfl
    | ok invResp =>
      dsimp only
      cases hpay : env (Call.payment payReqId oid (initialOrder payload oid).total) with
      | exn m =>
          intro o ho
          simp only [orderRecords_fallback, recordsOfTrace_append,
            recordsOfTrace_cons_dbCreate, recordsOfTrace_cons_reserve,
            recordsOfTrace_cons_payment, recordsOfTrace_nil,
            List.mem_append, List.mem_cons, List.not_mem_nil, or_assoc, or_false, false_or] at ho
          rcases ho with rfl | rfl <;>
            exact markersFromResponses_none _ _ _ _ _ _ rfl rfl rfl
      | httpErr s d =>
          intro o ho
          simp only [apply_ite orderRecords, orderRecords_mk, recordsOfTrace_append,
            recordsOfTrace_cons_dbCreate, recordsOfTrace_cons_reserve,
            recordsOfTrace_cons_payment, recordsOfTrace_cons_dbUpdate,
            recordsOfTrace_release, recordsOfTrace_nil, ite_self,
            List.mem_append, List.mem_cons, List.not_mem_nil, or_assoc, or_false, false_or] at ho
          rcases ho with rfl | rfl <;>
            exact markersFromResponses_none _ _ _ _ _ _ rfl rfl rfl
      | ok payResp =>
        dsimp only
        split
        · intro o ho
          simp only [orderRecords_mk, recordsOfTrace_append,
            recordsOfTrace_cons_dbCreate, recordsOfTrace_cons_reserve,
            recordsOfTrace_cons_payment, recordsOfTrace_cons_dbUpdate,
            recordsOfTrace_release, recordsOfTrace_nil,
            List.mem_append, List.mem_cons, List.not_mem_nil, or_assoc, or_false, false_or] at ho
          rcases ho with rfl | rfl <;>
            exact markersFromResponses_none _ _ _ _ _ _ rfl rfl rfl
        · next hbf0 =>
          have hbf : paymentBusinessFail payResp = false := Bool.eq_false_iff.mpr hbf0
          have hpay2 : env (Call.payment payReqId oid (orderTotal payload.items))
              = .ok payResp := hpay
          cases payResp with
          | nonDict =>
            cases hship : env (Call.ship shipReqId oid payload.address payload.items) with
            | exn m =>
                intro o ho
                simp only [orderRecords_fallback, recordsOfTrace_append,
                  recordsOfTrace_cons_dbCreate, recordsOfTrace_cons_reserve,
                  recordsOfTrace_cons_payment, recordsOfTrace_cons_ship,
                  recordsOfTrace_nil, List.mem_append, List.mem_cons,
                  List.not_mem_nil, or_assoc, or_false, false_or] at ho
                rcases ho with rfl | rfl <;>
                  exact markersFromResponses_none _ _ _ _ _ _ rfl rfl rfl
            | httpErr s d =>
                intro o ho
                simp only [orderRecords_mk, recordsOfTrace_append,
                  recordsOfTrace_cons_dbCreate, recordsOfTrace_cons_reserve,
                  recordsOfTrace_cons_payment, recordsOfTrace_cons_ship,
                  recordsOfTrace_cons_dbUpdate, recordsOfTrace_release,
                  recordsOfTrace_nil, List.mem_append, List.mem_cons,
                  List.not_mem_nil, or_assoc, or_false, false_or] at ho
                rcases ho with rfl | rfl <;>
                  exact markersFromResponses_none _ _ _ _ _ _ rfl rfl rfl
            | ok shipResp =>
                dsimp only
                split
                · intro o ho
                  simp only [orderRecords_mk, recordsOfTrace_append,
                    recordsOfTrace_cons_dbCreate, recordsOfTrace_cons_reserve,
                    recordsOfTrace_cons_payment, recordsOfTrace_cons_ship,
                    recordsOfTrace_cons_dbUpdate, recordsOfTrace_commit,
                    recordsOfTrace_nil, List.mem_append, List.mem_cons,
                    List.not_mem_nil, or_assoc, or_false, false_or] at ho
                  rcases ho with rfl | rfl | rfl
                  · exact markersFromResponses_none _ _ _ _ _ _ rfl rfl rfl
                  · exact ⟨reservation_marker_ok env payload oid invResp hres _ rfl,
                      Or.inl rfl,
                      shipment_marker_ok env payload oid shipReqId shipResp hship _ (by cases shipResp <;> rfl)⟩
                  · exact ⟨reservation_marker_ok env payload oid invResp hres _ rfl,
                      Or.inl rfl,
                      shipment_marker_ok env payload oid shipReqId shipResp hship _ (by cases shipResp <;> rfl)⟩
                all_goals intro o ho
                all_goals
                  simp only [orderRecords_fallback, recordsOfTrace_append,
                    recordsOfTrace_cons_dbCreate, recordsOfTrace_cons_reserve,
                    recordsOfTrace_cons_payment, recordsOfTrace_cons_ship,
                    recordsOfTrace_cons_dbUpdate, recordsOfTrace_nil,
                    List.mem_append, List.mem_cons, List.not_mem_nil, or_assoc, or_false,
                    false_or] at ho
                all_goals
                  rcases ho with rfl | rfl | rfl
                  · exact markersFromResponses_none _ _ _ _ _ _ rfl rfl rfl
                  · exact ⟨reservation_marker_ok env payload oid invResp hres _ rfl,
                      Or.inl rfl,
                      shipment_marker_ok env payload oid shipReqId shipResp hship _ (by cases shipResp <;> rfl)⟩
                  · exact ⟨reservation_marker_ok env payload oid invResp hres _ rfl,
                      Or.inl rfl,
                      shipment_marker_ok env payload oid shipReqId shipResp hship _ (by cases shipResp <;> rfl)⟩
          | jdict i st dt =>
            cases hship : env (Call.ship shipReqId oid payload.address payload.items) with
            | exn m =>
                intro o ho
                simp only [orderRecords_fallback, recordsOfTrace_append,
                  recordsOfTrace_cons_dbCreate, recordsOfTrace_cons_reserve,
                  recordsOfTrace_cons_payment, recordsOfTrace_cons_ship,
                  recordsOfTrace_nil, List.mem_append, List.mem_cons,
                  List.not_mem_nil, or_assoc, or_false, false_or] at ho
                rcases ho with rfl | rfl <;>
                  exact markersFromResponses_none _ _ _ _ _ _ rfl rfl rfl
            | httpErr s d =>
                intro o ho
                cases i with
                | none =>
                    simp only [orderRecords_mk, recordsOfTrace_append,
                      recordsOfTrace_cons_dbCreate, recordsOfTrace_cons_reserve,
                      recordsOfTrace_cons_payment, recordsOfTrace_cons_ship,
                      recordsOfTrace_cons_dbUpdate, recordsOfTrace_release,
                      recordsOfTrace_nil, List.mem_append, List.mem_cons,
                      List.not_mem_nil, or_assoc, or_false, false_or] at ho
                    rcases ho with rfl | rfl <;>
                      exact markersFromResponses_none _ _ _ _ _ _ rfl rfl rfl
                | some p =>
                  by_cases hp : p = ""
                  · subst hp
                    simp only [orderRecords_mk, recordsOfTrace_append,
                      recordsOfTrace_cons_dbCreate, recordsOfTrace_cons_reserve,
                      recordsOfTrace_cons_payment, recordsOfTrace_cons_ship,
                      recordsOfTrace_cons_dbUpdate, recordsOfTrace_release,
                      recordsOfTrace_nil, optTruthy, List.mem_append, List.mem_cons,
                      List.not_mem_nil, or_assoc, or_false, false_or] at ho
                    simp [recordsOfTrace_nil, recordsOfTrace_cons_refund] at ho
                    rcases ho with rfl | rfl <;>
                      exact markersFromResponses_none _ _ _ _ _ _ rfl rfl rfl
                  · have hift : optTruthy (some p) = true := by simp [optTruthy, hp]
                    have hifp : (if (p = "" : Prop) then (false, (none : Option String),
                        ([] : List Call))
                        else (refundSucceeded env p, refundErrText env p, [Call.refund p]))
                        = (refundSucceeded env p, refundErrText env p, [Call.refund p]) :=
                      if_neg hp
                    simp only [orderRecords_mk, hifp, hift, if_true,
                      recordsOfTrace_append, recordsOfTrace_cons_dbCreate,
                      recordsOfTrace_cons_reserve, recordsOfTrace_cons_payment,
                      recordsOfTrace_cons_ship, recordsOfTrace_cons_refund,
                      recordsOfTrace_cons_dbUpdate, recordsOfTrace_release,
                      recordsOfTrace_nil, List.mem_append, List.mem_cons,
                      List.not_mem_nil, or_assoc, or_false, false_or] at ho
                    rcases ho with rfl | rfl
                    · exact markersFromResponses_none _ _ _ _ _ _ rfl rfl rfl
                    · exact ⟨Or.inl rfl, Or.inr ⟨st, dt, hpay2, hbf⟩, Or.inl rfl⟩
            | ok shipResp =>
                dsimp only
                split
                · intro o ho
                  simp only [orderRecords_mk, recordsOfTrace_append,
                    recordsOfTrace_cons_dbCreate, recordsOfTrace_cons_reserve,
                    recordsOfTrace_cons_payment, recordsOfTrace_cons_ship,
                    recordsOfTrace_cons_dbUpdate, recordsOfTrace_commit,
                    recordsOfTrace_nil, List.mem_append, List.mem_cons,
                    List.not_mem_nil, or_assoc, or_false, false_or] at ho
                  rcases ho with rfl | rfl | rfl
                  · exact markersFromResponses_none _ _ _ _ _ _ rfl rfl rfl
                  · exact ⟨reservation_marker_ok env payload oid invResp hres _ rfl,
                      payment_marker_ok env payload oid payReqId i st dt hpay2 hbf _ rfl,
                      shipment_marker_ok env payload oid shipReqId shipResp hship _ (by cases shipResp <;> rfl)⟩
                  · exact ⟨reservation_marker_ok env payload oid invResp hres _ rfl,
                      payment_marker_ok env payload oid payReqId i st dt hpay2 hbf _ rfl,
                      shipment_marker_ok env payload oid shipReqId shipResp hship _ (by cases shipResp <;> rfl)⟩
                all_goals intro o ho
                all_goals
                  simp only [orderRecords_fallback, recordsOfTrace_append,
                    recordsOfTrace_cons_dbCreate, recordsOfTrace_cons_reserve,
                    recordsOfTrace_cons_payment, recordsOfTrace_cons_ship,
                    recordsOfTrace_cons_dbUpdate, recordsOfTrace_nil,
                    List.mem_append, List.mem_cons, List.not_mem_nil, or_assoc, or_false,
                    false_or] at ho
                all_goals
                  rcases ho with rfl | rfl | rfl
                  · exact markersFromResponses_none _ _ _ _ _ _ rfl rfl rfl
                  · exact ⟨reservation_marker_ok env payload oid invResp hres _ rfl,
                      payment_marker_ok env payload oid payReqId i st dt hpay2 hbf _ rfl,
                      shipment_marker_ok env payload oid shipReqId shipResp hship _ (by cases shipResp <;> rfl)⟩
                  · exact ⟨reservation_marker_ok env payload oid invResp hres _ rfl,
                      payment_marker_ok env payload oid payReqId i st dt hpay2 hbf _ rfl,
                      shipment_marker_ok env payload oid shipReqId shipResp hship _ (by cases shipResp <;> rfl)⟩

/-- Witness for the amended C2 at a concrete run: the fabricated shipment
marker of the C2 counterexample is exactly the local-fallback case the
amendment allows. -/
theorem C2_amended_marker_provenance_witness :
    markersFromResponses c2Env happyRequest "o2" "P2" "S2" c2Order := by
  have hmem : c2Order
      ∈ orderRecords (create_order c2Env happyRequest none [] "o2" "P2" "S2") := by
    simp only [orderRecords, create_order, sagaRun, c2Env, happyRequest, c2Order,
      initialOrder, userIdOf, currencyOf, mkAddressDict, happyAddress, respId,
      respStatus, respDetail, paymentBusinessFail, lowerStr, optTruthy, guardCall,
      recordsOfTrace]
    norm_num [orderTotal]
    try decide
  exact C2_amended_marker_provenance c2Env happyRequest none [] "o2" "P2" "S2"
    (freshKey_none []) c2Order hmem

/-- A non-empty key absent from the idempotency map is fresh. -/
theorem freshKey_some (k : String) (idem0 : List (String × String))
    (h : lookupIdem idem0 k = none) : freshKey (some k) idem0 := by
  intro k2 hk2 hne
  injection hk2 with he
  exact he ▸ h

/-- The idempotency map after the saga body: the key is recorded exactly when
the initial persist succeeded (and the key is truthy), whatever happens in
the reserve, payment, shipment, and finalize steps. -/
theorem sagaRun_idem (env : Env) (payload : CreateOrderRequest)
    (key : Option String) (idem0 : List (String × String))
    (oid payReqId shipReqId : String) (r0 : Resp)
    (hdb : env (Call.dbCreate (initialOrder payload oid)) = .ok r0) :
    (sagaRun env payload key idem0 oid payReqId shipReqId).idem
      = (match key with
         | some k => if k = "" then idem0 else (k, oid) :: idem0
         | none => idem0) := by
  unfold sagaRun
  simp only [hdb]
  repeat' split
  all_goals simp [fallback_idem]

/-- C10: with a fresh non-empty key, the key-to-orderId entry is recorded as
soon as the initial order record is persisted — before any saga step runs and
regardless of how those steps end — and never when the initial persist fails;
a later request replaying the consumed key reads exactly the first run's
order id from the store and performs no other downstream call. -/
theorem C10_key_consumed_after_persist (env : Env) (payload : CreateOrderRequest)
    (k : String) (idem0 : List (String × String)) (oid payReqId shipReqId : String)
    (hk : k ≠ "") (hfresh : lookupIdem idem0 k = none) :
    (∀ s d, env (Call.dbCreate (initialOrder payload oid)) = .httpErr s d →
       (create_order env payload (some k) idem0 oid payReqId shipReqId).idem = idem0)
    ∧ (∀ m, env (Call.dbCreate (initialOrder payload oid)) = .exn m →
       (create_order env payload (some k) idem0 oid payReqId shipReqId).idem = idem0)
    ∧ (∀ r0, env (Call.dbCreate (initialOrder payload oid)) = .ok r0 →
       (create_order env payload (some k) idem0 oid payReqId shipReqId).idem
         = (k, oid) :: idem0)
    ∧ (∀ env2 payload2 oid2 payReqId2 shipReqId2 r,
        env2 (Call.dbGet oid) = .ok r →
        create_order env2 payload2 (some k) ((k, oid) :: idem0) oid2 payReqId2 shipReqId2
          = { result := .replay r, idem := (k, oid) :: idem0,
              trace := [Call.dbGet oid] }) := by
  refine ⟨?_, ?_, ?_, ?_⟩
  · intro s d hdb
    rw [create_order_not_replay env payload (some k) idem0 oid payReqId shipReqId
      (freshKey_some k idem0 hfresh)]
    unfold sagaRun
    simp only [hdb]
  · intro m hdb
    rw [create_order_not_replay env payload (some k) idem0 oid payReqId shipReqId
      (freshKey_some k idem0 hfresh)]
    unfold sagaRun
    simp only [hdb]
  · intro r0 hdb
    rw [create_order_not_replay env payload (some k) idem0 oid payReqId shipReqId
      (freshKey_some k idem0 hfresh),
      sagaRun_idem env payload (some k) idem0 oid payReqId shipReqId r0 hdb]
    simp [hk]
  · intro env2 payload2 oid2 payReqId2 shipReqId2 r hget
    have hlook : lookupIdem ((k, oid) :: idem0) k = some oid := by
      simp [lookupIdem]
    unfold create_order
    simp only [hk, hlook, hget]
    simp

/-- Environment for the C10 witness, first request: the initial persist
succeeds, then the reservation is rejected, so the saga fails after the key
is consumed. -/
def c10Env : Env := fun c =>
  match c with
  | Call.reserve _ _ => .httpErr 409 "insufficient stock"
  | _ => .ok .nonDict

/-- Environment for the C10 witness, replayed request: the store returns the
first run's (cancelled) order. -/
def c10EnvReplay : Env := fun c =>
  match c with
  | Call.dbGet _ => .ok (.jdict (some "o10") (some "cancelled") none)
  | _ => .ok .nonDict

/-- Witness for C10 at a concrete pair of runs. -/
theorem C10_key_consumed_after_persist_witness :
    (create_order c10Env happyRequest (some "k10") [] "o10" "PA" "SA").idem
        = [("k10", "o10")]
    ∧ create_order c10EnvReplay happyRequest (some "k10") [("k10", "o10")] "o11" "PB" "SB"
        = { result := .replay (.jdict (some "o10") (some "cancelled") none),
            idem := [("k10", "o10")], trace := [Call.dbGet "o10"] } := by
  have h := C10_key_consumed_after_persist c10Env happyRequest "k10" [] "o10" "PA" "SA"
    (by decide) rfl
  exact ⟨h.2.2.1 .nonDict rfl,
    (C10_key_consumed_after_persist c10Env happyRequest "k10" [] "o10" "PA" "SA"
      (by decide) rfl).2.2.2 c10EnvReplay happyRequest "o11" "PB" "SB"
      (.jdict (some "o10") (some "cancelled") none) rfl⟩

end OrderService
